import Mathlib

/-!
Verification of the GitLab API client (`src/api-driver.js`).

The embedding models the JavaScript class `GitlabApiDriver` as a Lean structure
together with explicit state-passing functions.  The HTTP transport (axios) is
modelled as an oracle `World : Request → TransportOutcome`; axios default
semantics resolve a response with status in [200, 300) and reject every other
response, as well as network failures.  Each driver method returns the (unchanged)
driver state, the list of outbound requests it issued in order, and an
`Except DriverError` result.
-/

namespace GtlbApi

/-- JavaScript-style string prefix test, over the character list. -/
def strStartsWith (s p : String) : Bool :=
  List.isPrefixOf p.data s.data

/-- Drop the first `n` characters of a string. -/
def strDrop (s : String) (n : Nat) : String :=
  ⟨s.data.drop n⟩

/-- Modelled from the spec: `trimTailingSlash` is imported from `src/util.js`,
which is not among the sources.  The spec states the base URL is normalized to
have "no trailing slash", so this removes all trailing slash characters. -/
def trimTailingSlash (s : String) : String :=
  ⟨(s.data.reverse.dropWhile (· == '/')).reverse⟩

/-- Modelled from the spec: `trimLeadingSlash` is imported from `src/util.js`,
which is not among the sources; it strips leading slash characters. -/
def trimLeadingSlash (s : String) : String :=
  ⟨s.data.dropWhile (· == '/')⟩

/-- Modelled from the spec: `trimSlashes` is imported from `src/util.js`, which
is not among the sources.  The spec (4.1, fileExists) says paths have
"leading/trailing slashes stripped". -/
def trimSlashes (s : String) : String :=
  trimLeadingSlash (trimTailingSlash s)

/-- The characters `encodeURIComponent` leaves unescaped:
alphanumerics and `- _ . ! ~ * ' ( )` (the apostrophe is code point 39). -/
def isUnescapedURIChar (c : Char) : Bool :=
  c.isAlphanum || c == '-' || c == '_' || c == '.' || c == '!' || c == '~' ||
    c == '*' || c.toNat == 39 || c == '(' || c == ')'

/-- Uppercase hexadecimal digit for `n < 16`. -/
def hexDigit (n : Nat) : Char :=
  if n < 10 then Char.ofNat (48 + n) else Char.ofNat (65 + (n - 10))

/-- Percent-encoding of a single byte, e.g. `47 ↦ "%2F"`. -/
def percentByte (b : Nat) : String :=
  "%" ++ String.singleton (hexDigit (b / 16)) ++ String.singleton (hexDigit (b % 16))

/-- UTF-8 encoding of a single character as a list of byte values. -/
def utf8Bytes (c : Char) : List Nat :=
  let n := c.toNat
  if n < 0x80 then [n]
  else if n < 0x800 then
    [0xC0 + n / 64, 0x80 + n % 64]
  else if n < 0x10000 then
    [0xE0 + n / 4096, 0x80 + (n / 64) % 64, 0x80 + n % 64]
  else
    [0xF0 + n / 262144, 0x80 + (n / 4096) % 64, 0x80 + (n / 64) % 64, 0x80 + n % 64]

/-- JavaScript's global `encodeURIComponent`: every character outside the
unescaped set is replaced by the percent-encoding of its UTF-8 bytes. -/
def encodeURIComponent (s : String) : String :=
  String.join (s.data.map fun c =>
    if isUnescapedURIChar c then String.singleton c
    else String.join ((utf8Bytes c).map percentByte))

/-- Decimal digit test on a character. -/
def isDigitChar (c : Char) : Bool :=
  48 ≤ c.toNat && c.toNat ≤ 57

/-- Value of a list of decimal digit characters. -/
def digitsToNat (cs : List Char) : Nat :=
  cs.foldl (fun n c => n * 10 + (c.toNat - 48)) 0

/-- Integer value of a string when it is integer-valued (an optional minus
sign followed by at least one decimal digit), `none` otherwise. -/
def parseIntString (s : String) : Option Int :=
  match s.data with
  | [] => none
  | c :: rest =>
    if c == '-' then
      if rest ≠ [] && rest.all isDigitChar then some (-(digitsToNat rest : Int)) else none
    else if (c :: rest).all isDigitChar then some (digitsToNat (c :: rest) : Int) else none

/-- A caller-supplied project identifier: a JavaScript number (integer), a
string, or a value of neither type (e.g. `undefined`). -/
inductive Identifier where
  | num (n : Int)
  | str (s : String)
  | undef
deriving DecidableEq, Repr

/-- JavaScript template-literal display of an identifier. -/
def identifierDisplay : Identifier → String
  | .num n => toString n
  | .str s => s
  | .undef => "undefined"

/-- The result object of `resolveProjectIdentifier`: at most one of the fields
`id` and `path` is populated (`some`), matching the JavaScript object whose
fields are tested with `typeof ... !== 'undefined'`. -/
structure ResolvedIdentifier where
  id : Option Int := none
  path : Option String := none
deriving DecidableEq, Repr

/-- Modelled from the spec: `resolveProjectIdentifier` lives in `src/util.js`,
which is not among the sources.  Spec 4.1: an integer (or integer-valued
string) yields the numeric-id variant; any other non-empty string yields the
path variant, stripping a matching base-URL prefix and then leading/trailing
slashes; anything else resolves to neither variant (a resolution failure). -/
def resolveProjectIdentifier (baseUrl : String) : Identifier → ResolvedIdentifier
  | .num n => { id := some n }
  | .str s =>
    match parseIntString s with
    | some n => { id := some n }
    | none =>
      if s.isEmpty then {}
      else
        let p := if strStartsWith s baseUrl then strDrop s baseUrl.data.length else s
        { path := some (trimSlashes p) }
  | .undef => {}

/-- Opaque JSON data: request and response bodies are passed through unmodified
by this client. -/
inductive Json where
  | null
  | bool (b : Bool)
  | num (n : Int)
  | str (s : String)
  | arr (elems : List Json)
  | obj (fields : List (String × Json))

/-- Field lookup on a JSON object (`undefined`, i.e. `none`, otherwise). -/
def findField : List (String × Json) → String → Option Json
  | [], _ => none
  | (k, v) :: rest, key => if k = key then some v else findField rest key

/-- JavaScript property access `j.key`: `none` models `undefined`. -/
def Json.getField : Json → String → Option Json
  | .obj fields, key => findField fields key
  | _, _ => none

/-- JavaScript template-literal display of a possibly-undefined property,
as interpolated into a URL or message. -/
def jsDisplay : Option Json → String
  | none => "undefined"
  | some .null => "null"
  | some (.bool b) => if b then "true" else "false"
  | some (.num n) => toString n
  | some (.str s) => s
  | some (.arr _) => ""
  | some (.obj _) => "[object Object]"

/-- HTTP request method. -/
inductive Method where
  | get
  | post
  | put
deriving DecidableEq, Repr

/-- An outbound HTTP request as handed to axios: method, URL, headers, and an
optional JSON body (for POST/PUT). -/
structure Request where
  method : Method
  url : String
  headers : List (String × String)
  body : Option Json

/-- What the remote end does with one request: either a response with some
status and body, or a network-level failure. -/
inductive TransportOutcome where
  | response (status : Nat) (body : Json)
  | networkFailure

/-- The environment: maps each request to its transport outcome. -/
abbrev World := Request → TransportOutcome

/-- An axios rejection: either an error that carries a response (`e.response`
defined, non-2xx status) or a network error (`e.response` undefined). -/
inductive AxiosError where
  | withResponse (status : Nat) (body : Json)
  | network

/-- axios with its default `validateStatus`: a response with status in
[200, 300) resolves to `(status, data)`; any other response rejects with an
error carrying the response; a network failure rejects with no response. -/
def axiosRequest (w : World) (req : Request) : Except AxiosError (Nat × Json) :=
  match w req with
  | .networkFailure => .error .network
  | .response s body =>
    if 200 ≤ s ∧ s < 300 then .ok (s, body) else .error (.withResponse s body)

/-- Errors thrown by the driver: `jsError` models a plain `new Error(...)`
(the invalid-identifier failure, the spec's `InvalidIdentifier`);
`gitlabApiError` models `GitlabApiError` (the spec's `ApiError`), carrying a
human-readable description and the original cause. -/
inductive DriverError where
  | jsError (message : String)
  | gitlabApiError (message : String) (cause : AxiosError)

/-- The fixed API path prefix (`const API_PATH`). -/
def API_PATH : String := "/api/v4"

/-- The client state set up by the constructor of `GitlabApiDriver`. -/
structure GitlabApiDriver where
  VERBOSE : Bool
  BASE_URL : String
  API_URL : String
  AT : String
  config : List (String × String)

/-- The constructor: trims trailing slashes from the base URL, rewrites
`http://` to `https://`, prepends `https://` when no scheme is present, and
computes `API_URL = BASE_URL ++ API_PATH` and the static auth header. -/
def mkGitlabApiDriver (baseUrl accessToken : String) (verbose : Bool) : GitlabApiDriver :=
  let b0 := trimTailingSlash baseUrl
  let b1 := if strStartsWith b0 "http://" then "https://" ++ strDrop b0 7 else b0
  let b2 := if strStartsWith b1 "https://" then b1 else "https://" ++ b1
  { VERBOSE := verbose
    BASE_URL := b2
    API_URL := b2 ++ API_PATH
    AT := accessToken
    config := [("PRIVATE-TOKEN", accessToken)] }

/-- `getProjectUrl`: resolves the identifier; a numeric id yields
`{API_URL}/projects/{id}`, a path yields `{API_URL}/projects/{encodedPath}`
with the slash-trimmed path percent-encoded, and anything else throws a plain
`Error` (not a `GitlabApiError`). -/
def GitlabApiDriver.getProjectUrl (d : GitlabApiDriver) (identifier : Identifier) :
    Except DriverError String :=
  let resolvedIdentifier := resolveProjectIdentifier d.BASE_URL identifier
  match resolvedIdentifier.id with
  | some i => .ok (d.API_URL ++ "/projects/" ++ toString i)
  | none =>
    match resolvedIdentifier.path with
    | some p => .ok (d.API_URL ++ "/projects/" ++ encodeURIComponent (trimSlashes p))
    | none => .error (.jsError (identifierDisplay identifier ++
        " is an invalid identifier for a project"))

/-- `getProject`: GET on the project URL; returns the parsed body; transport
errors are wrapped as `GitlabApiError`.  The URL is computed before the `try`
block, so an invalid identifier propagates unwrapped and unsent. -/
def GitlabApiDriver.getProject (d : GitlabApiDriver) (w : World) (identifier : Identifier) :
    GitlabApiDriver × List Request × Except DriverError Json :=
  (d,
    match d.getProjectUrl identifier with
    | .error e => ([], .error e)
    | .ok url =>
      let req : Request := ⟨.get, url, d.config, none⟩
      ([req],
        match axiosRequest w req with
        | .ok (_, data) => .ok data
        | .error e => .error (.gitlabApiError
            ("Error requesting project identified by " ++ identifierDisplay identifier) e)))

/-- `getBranches`: GET `{projectUrl}/repository/branches`; same shape as
`getProject`. -/
def GitlabApiDriver.getBranches (d : GitlabApiDriver) (w : World)
    (projectIdentifier : Identifier) :
    GitlabApiDriver × List Request × Except DriverError Json :=
  (d,
    match d.getProjectUrl projectIdentifier with
    | .error e => ([], .error e)
    | .ok purl =>
      let req : Request := ⟨.get, purl ++ "/repository/branches", d.config, none⟩
      ([req],
        match axiosRequest w req with
        | .ok (_, data) => .ok data
        | .error e => .error (.gitlabApiError
            ("Error requesting branchs for project identified by " ++
              identifierDisplay projectIdentifier) e)))

/-- `branchExists`: GET
`{API_URL}/projects/{projectId}/repository/branches/{branchName}`; a resolved
response returns `status === 200`; a rejection whose response has status 404
returns `false`; any other rejection is wrapped as `GitlabApiError`. -/
def GitlabApiDriver.branchExists (d : GitlabApiDriver) (w : World)
    (projectId branchName : String) :
    GitlabApiDriver × List Request × Except DriverError Bool :=
  (d,
    let url := d.API_URL ++ "/projects/" ++ projectId ++ "/repository/branches/" ++ branchName
    let req : Request := ⟨.get, url, d.config, none⟩
    let msg := "Error requesting branch " ++ branchName ++ " for project ID " ++ projectId
    ([req],
      match axiosRequest w req with
      | .ok (s, _) => .ok (s == 200)
      | .error (.withResponse s body) =>
        if s = 404 then .ok false
        else .error (.gitlabApiError msg (.withResponse s body))
      | .error .network => .error (.gitlabApiError msg .network)))

/-- `fileExists`: GET
`{API_URL}/projects/{projectId}/repository/files/{encodedFilePath}?ref={branchName}`
with the file path slash-trimmed and percent-encoded; response policy identical
to `branchExists`. -/
def GitlabApiDriver.fileExists (d : GitlabApiDriver) (w : World)
    (projectId branchName filePath : String) :
    GitlabApiDriver × List Request × Except DriverError Bool :=
  (d,
    let encodedFilePath := encodeURIComponent (trimSlashes filePath)
    let url := d.API_URL ++ "/projects/" ++ projectId ++ "/repository/files/" ++
      encodedFilePath ++ "?ref=" ++ branchName
    let req : Request := ⟨.get, url, d.config, none⟩
    let msg := "Error requesting file " ++ filePath ++ " from branch " ++ branchName ++
      " for project ID " ++ projectId
    ([req],
      match axiosRequest w req with
      | .ok (s, _) => .ok (s == 200)
      | .error (.withResponse s body) =>
        if s = 404 then .ok false
        else .error (.gitlabApiError msg (.withResponse s body))
      | .error .network => .error (.gitlabApiError msg .network)))

/-- `postCommit`: POST `{API_URL}/projects/{projectId}/repository/commits` with
the JSON content type header; a resolved response returns `status === 201`; any
rejection is wrapped as `GitlabApiError`. -/
def GitlabApiDriver.postCommit (d : GitlabApiDriver) (w : World)
    (projectId : String) (commitObject : Json) :
    GitlabApiDriver × List Request × Except DriverError Bool :=
  (d,
    let url := d.API_URL ++ "/projects/" ++ projectId ++ "/repository/commits"
    let config := [("PRIVATE-TOKEN", d.AT), ("Content-Type", "application/json")]
    let req : Request := ⟨.post, url, config, some commitObject⟩
    ([req],
      match axiosRequest w req with
      | .ok (s, _) => .ok (s == 201)
      | .error e => .error (.gitlabApiError
          ("Error executing commit on project ID " ++ projectId) e)))

/-- `postSnippetCommit`: PUT `{API_URL}/snippets/{snippetId}` with the JSON
content type header; same 201-boolean contract as `postCommit`. -/
def GitlabApiDriver.postSnippetCommit (d : GitlabApiDriver) (w : World)
    (snippetId : String) (commitObject : Json) :
    GitlabApiDriver × List Request × Except DriverError Bool :=
  (d,
    let url := d.API_URL ++ "/snippets/" ++ snippetId
    let config := [("PRIVATE-TOKEN", d.AT), ("Content-Type", "application/json")]
    let req : Request := ⟨.put, url, config, some commitObject⟩
    ([req],
      match axiosRequest w req with
      | .ok (s, _) => .ok (s == 201)
      | .error e => .error (.gitlabApiError
          ("Error executing commit on snippet ID " ++ snippetId) e)))

/-- The tail of `getRawFile` after the branch name is known: builds
`{projectUrl}/repository/files/{encodedFilePath}/raw?ref={branchStr}`, issues
the GET, returns the body on status 200, and (implicitly) `undefined` on any
other resolved status. `trace0` carries requests already issued when the
default branch was fetched. -/
def getRawFileRest (d : GitlabApiDriver) (w : World) (projectIdentifier : Identifier)
    (filePath branchStr : String) (trace0 : List Request) :
    List Request × Except DriverError (Option Json) :=
  match d.getProjectUrl projectIdentifier with
  | .error e => (trace0, .error e)
  | .ok purl =>
    let encodedFilePath := encodeURIComponent (trimSlashes filePath)
    let url := purl ++ "/repository/files/" ++ encodedFilePath ++ "/raw?ref=" ++ branchStr
    let req : Request := ⟨.get, url, d.config, none⟩
    (trace0 ++ [req],
      match axiosRequest w req with
      | .ok (s, data) => .ok (if s == 200 then some data else none)
      | .error e => .error (.gitlabApiError
          ("Error requesting raw file " ++ filePath ++ " from branch " ++ branchStr ++
            " for project identified by " ++ identifierDisplay projectIdentifier) e))

/-- `getRawFile`: when `branchName` is undefined it first calls `getProject`
and reads `default_branch` off the returned body, then proceeds as
`getRawFileRest`. -/
def GitlabApiDriver.getRawFile (d : GitlabApiDriver) (w : World)
    (projectIdentifier : Identifier) (filePath : String) (branchName : Option String) :
    GitlabApiDriver × List Request × Except DriverError (Option Json) :=
  (d,
    match branchName with
    | some b => getRawFileRest d w projectIdentifier filePath b []
    | none =>
      match d.getProject w projectIdentifier with
      | (_, t1, .error e) => (t1, .error e)
      | (_, t1, .ok projData) =>
        getRawFileRest d w projectIdentifier filePath
          (jsDisplay (projData.getField "default_branch")) t1)

/-- `getVersion`: GET `{API_URL}/version`; parsed body on status 200, `null`
otherwise; rejections wrapped as `GitlabApiError`. -/
def GitlabApiDriver.getVersion (d : GitlabApiDriver) (w : World) :
    GitlabApiDriver × List Request × Except DriverError (Option Json) :=
  (d,
    let url := d.API_URL ++ "/version"
    let req : Request := ⟨.get, url, d.config, none⟩
    ([req],
      match axiosRequest w req with
      | .ok (s, data) => .ok (if s == 200 then some data else none)
      | .error e => .error (.gitlabApiError "Error retrieving API version." e)))

/-- A sample client used for concrete instances: base URL `example.com`,
normalized to `https://example.com`, api root `https://example.com/api/v4`. -/
def exDriver : GitlabApiDriver := mkGitlabApiDriver "example.com" "token" false

/-- A backend that answers every request with the given status and a null
body. -/
def respondWith (s : Nat) : World := fun _ => .response s .null

/-- A backend whose every connection fails at the network level. -/
def downWorld : World := fun _ => .networkFailure

/-- A backend for exercising `getRawFile` without an explicit branch: the
project-lookup URL answers 200 with a body whose `default_branch` is `"main"`,
and every other URL answers 200 with raw content. -/
def twoStepWorld : World := fun req =>
  if req.url = "https://example.com/api/v4/projects/1" then
    .response 200 (.obj [("default_branch", .str "main")])
  else
    .response 200 (.str "content")

/-- C3: constructing a client with base URL `"http://example.com/"` yields
internal base URL `"https://example.com"` (trailing slash removed, `http`
upgraded to `https`); `"example.com"` (no scheme) also yields
`"https://example.com"`; and for every construction the computed API root is
the normalized base URL followed by `"/api/v4"`. -/
theorem constructor_base_url_normalization :
    (∀ accessToken verbose,
      (mkGitlabApiDriver "http://example.com/" accessToken verbose).BASE_URL =
        "https://example.com") ∧
    (∀ accessToken verbose,
      (mkGitlabApiDriver "example.com" accessToken verbose).BASE_URL =
        "https://example.com") ∧
    (∀ baseUrl accessToken verbose,
      (mkGitlabApiDriver baseUrl accessToken verbose).API_URL =
        (mkGitlabApiDriver baseUrl accessToken verbose).BASE_URL ++ "/api/v4") :=
  ⟨fun _ _ => rfl, fun _ _ => rfl, fun _ _ _ => rfl⟩

/-- C9: every operation returns the client state unchanged: the configuration
fields (base URL, API root, token, auth header, verbose flag) are immutable
after construction, whatever the arguments and whatever the outcome. -/
theorem driver_config_immutable (d : GitlabApiDriver) (w : World) (i : Identifier)
    (projectId branchName filePath snippetId : String) (payload : Json)
    (optBranch : Option String) :
    (d.getProject w i).1 = d ∧
    (d.getBranches w i).1 = d ∧
    (d.branchExists w projectId branchName).1 = d ∧
    (d.fileExists w projectId branchName filePath).1 = d ∧
    (d.postCommit w projectId payload).1 = d ∧
    (d.postSnippetCommit w snippetId payload).1 = d ∧
    (d.getRawFile w i filePath optBranch).1 = d ∧
    (d.getVersion w).1 = d :=
  ⟨rfl, rfl, rfl, rfl, rfl, rfl, rfl, rfl⟩

/-- C4: `getProjectUrl` returns `{API_URL}/projects/{id}` when the identifier
resolves to the numeric-id variant (in particular `42` maps to
`{apiRoot}/projects/42`), returns `{API_URL}/projects/{encodedPath}` with the
slash-trimmed path percent-encoded when it resolves to the path variant (for
`"a/b c"` the api root followed by `/projects/` and the percent-encoding of
`"a/b c"`), and fails with the invalid-identifier error otherwise. -/
theorem getProjectUrl_resolution (d : GitlabApiDriver) (identifier : Identifier) :
    (∀ i, (resolveProjectIdentifier d.BASE_URL identifier).id = some i →
      d.getProjectUrl identifier = .ok (d.API_URL ++ "/projects/" ++ toString i)) ∧
    ((resolveProjectIdentifier d.BASE_URL identifier).id = none →
      ∀ p, (resolveProjectIdentifier d.BASE_URL identifier).path = some p →
        d.getProjectUrl identifier = .ok (d.API_URL ++ "/projects/" ++
          encodeURIComponent (trimSlashes p))) ∧
    ((resolveProjectIdentifier d.BASE_URL identifier).id = none →
      (resolveProjectIdentifier d.BASE_URL identifier).path = none →
      d.getProjectUrl identifier = .error (.jsError (identifierDisplay identifier ++
        " is an invalid identifier for a project"))) ∧
    exDriver.getProjectUrl (.num 42) = .ok (exDriver.API_URL ++ "/projects/" ++ "42") ∧
    exDriver.getProjectUrl (.str "a/b c") =
      .ok (exDriver.API_URL ++ "/projects/" ++ encodeURIComponent "a/b c") := by
  refine ⟨?_, ?_, ?_, rfl, rfl⟩
  · intro i h
    simp only [GitlabApiDriver.getProjectUrl, h]
  · intro h p hp
    simp only [GitlabApiDriver.getProjectUrl, h, hp]
  · intro h hp
    simp only [GitlabApiDriver.getProjectUrl, h, hp]

/-- C4 witness: the invalid-identifier case at the concrete input `undefined`
against the sample client. -/
theorem getProjectUrl_resolution_witness :
    exDriver.getProjectUrl .undef =
      .error (.jsError "undefined is an invalid identifier for a project") :=
  (getProjectUrl_resolution exDriver .undef).2.2.1 rfl rfl

/-- C1 counterexample: against a backend that answers status 204 (a success
status other than 200), `branchExists` returns `false` even though the
response status is not 404, so `false` is not returned exactly when the status
is 404. -/
theorem branchExists_false_on_204_counterexample :
    (exDriver.branchExists (respondWith 204) "1" "main").2.2 = .ok false ∧
    respondWith 204 ⟨.get, "https://example.com/api/v4/projects/1/repository/branches/main",
      exDriver.config, none⟩ = .response 204 .null ∧
    (exDriver.branchExists (respondWith 204) "1" "main").2.1 =
      [⟨.get, "https://example.com/api/v4/projects/1/repository/branches/main",
        exDriver.config, none⟩] ∧
    204 ≠ 404 :=
  ⟨rfl, rfl, rfl, by decide⟩

/-- C1 (amended): `branchExists` issues GET
`{API_URL}/projects/{projectId}/repository/branches/{branchName}`; it returns
`true` iff the status is 200 among resolved (2xx) responses — so a non-200
success status returns `false` as well —, returns `false` when the response
status is 404, and raises the api error for any other HTTP error status or a
network failure. -/
theorem branchExists_response_policy (d : GitlabApiDriver) (w : World)
    (projectId branchName : String) (req : Request)
    (hreq : req = ⟨.get, d.API_URL ++ "/projects/" ++ projectId ++
      "/repository/branches/" ++ branchName, d.config, none⟩) :
    (d.branchExists w projectId branchName).2.1 = [req] ∧
    (∀ s body, w req = .response s body → 200 ≤ s → s < 300 →
      (d.branchExists w projectId branchName).2.2 = .ok (s == 200)) ∧
    (∀ body, w req = .response 404 body →
      (d.branchExists w projectId branchName).2.2 = .ok false) ∧
    (∀ s body, w req = .response s body → ¬ (200 ≤ s ∧ s < 300) → s ≠ 404 →
      (d.branchExists w projectId branchName).2.2 = .error (.gitlabApiError
        ("Error requesting branch " ++ branchName ++ " for project ID " ++ projectId)
        (.withResponse s body))) ∧
    (w req = .networkFailure →
      (d.branchExists w projectId branchName).2.2 = .error (.gitlabApiError
        ("Error requesting branch " ++ branchName ++ " for project ID " ++ projectId)
        .network)) := by
  subst hreq
  refine ⟨rfl, ?_, ?_, ?_, ?_⟩
  · intro s body hw h1 h2
    simp only [GitlabApiDriver.branchExists, axiosRequest, hw]
    rw [if_pos ⟨h1, h2⟩]
  · intro body hw
    simp [GitlabApiDriver.branchExists, axiosRequest, hw]
  · intro s body hw hns h404
    simp only [GitlabApiDriver.branchExists, axiosRequest, hw, if_neg hns]
    rw [if_neg h404]
  · intro hw
    simp only [GitlabApiDriver.branchExists, axiosRequest, hw]

/-- C1 witness: concrete runs of the amended statement against the sample
client: status 200 yields `true`, status 404 yields `false`, and a network
failure raises the api error. -/
theorem branchExists_response_policy_witness :
    (exDriver.branchExists (respondWith 200) "1" "main").2.2 = .ok true ∧
    (exDriver.branchExists (respondWith 404) "1" "main").2.2 = .ok false ∧
    (exDriver.branchExists downWorld "1" "main").2.2 = .error (.gitlabApiError
      ("Error requesting branch " ++ "main" ++ " for project ID " ++ "1") .network) :=
  ⟨(branchExists_response_policy exDriver (respondWith 200) "1" "main" _ rfl).2.1
      200 .null rfl (by decide) (by decide),
   (branchExists_response_policy exDriver (respondWith 404) "1" "main" _ rfl).2.2.1
      .null rfl,
   (branchExists_response_policy exDriver downWorld "1" "main" _ rfl).2.2.2.2 rfl⟩

/-- C7 counterexample: against a backend that answers status 204 (a success
status other than 200), `fileExists` returns `false` even though the response
status is not 404, so the policy is not `false` exactly on 404. -/
theorem fileExists_false_on_204_counterexample :
    (exDriver.fileExists (respondWith 204) "1" "main" "/docs/readme.md").2.2 = .ok false ∧
    respondWith 204 ⟨.get,
      "https://example.com/api/v4/projects/1/repository/files/docs%2Freadme.md?ref=main",
      exDriver.config, none⟩ = .response 204 .null ∧
    (exDriver.fileExists (respondWith 204) "1" "main" "/docs/readme.md").2.1 =
      [⟨.get,
        "https://example.com/api/v4/projects/1/repository/files/docs%2Freadme.md?ref=main",
        exDriver.config, none⟩] ∧
    204 ≠ 404 :=
  ⟨rfl, rfl, rfl, by decide⟩

/-- C7 (amended): `fileExists` issues GET
`{API_URL}/projects/{projectId}/repository/files/{encodedFilePath}?ref={branchName}`
with the file path slash-trimmed and percent-encoded; it returns `true` iff the
status is 200 among resolved (2xx) responses — so a non-200 success status
returns `false` as well —, returns `false` when the response status is 404, and
raises the api error for any other HTTP error status or a network failure. -/
theorem fileExists_response_policy (d : GitlabApiDriver) (w : World)
    (projectId branchName filePath : String) (req : Request)
    (hreq : req = ⟨.get, d.API_URL ++ "/projects/" ++ projectId ++ "/repository/files/" ++
      encodeURIComponent (trimSlashes filePath) ++ "?ref=" ++ branchName,
      d.config, none⟩) :
    (d.fileExists w projectId branchName filePath).2.1 = [req] ∧
    (∀ s body, w req = .response s body → 200 ≤ s → s < 300 →
      (d.fileExists w projectId branchName filePath).2.2 = .ok (s == 200)) ∧
    (∀ body, w req = .response 404 body →
      (d.fileExists w projectId branchName filePath).2.2 = .ok false) ∧
    (∀ s body, w req = .response s body → ¬ (200 ≤ s ∧ s < 300) → s ≠ 404 →
      (d.fileExists w projectId branchName filePath).2.2 = .error (.gitlabApiError
        ("Error requesting file " ++ filePath ++ " from branch " ++ branchName ++
          " for project ID " ++ projectId) (.withResponse s body))) ∧
    (w req = .networkFailure →
      (d.fileExists w projectId branchName filePath).2.2 = .error (.gitlabApiError
        ("Error requesting file " ++ filePath ++ " from branch " ++ branchName ++
          " for project ID " ++ projectId) .network)) := by
  subst hreq
  refine ⟨rfl, ?_, ?_, ?_, ?_⟩
  · intro s body hw h1 h2
    simp only [GitlabApiDriver.fileExists, axiosRequest, hw]
    rw [if_pos ⟨h1, h2⟩]
  · intro body hw
    simp [GitlabApiDriver.fileExists, axiosRequest, hw]
  · intro s body hw hns h404
    simp only [GitlabApiDriver.fileExists, axiosRequest, hw, if_neg hns]
    rw [if_neg h404]
  · intro hw
    simp only [GitlabApiDriver.fileExists, axiosRequest, hw]

/-- C7 witness: concrete runs of the amended statement: status 200 yields
`true`, status 404 yields `false`. -/
theorem fileExists_response_policy_witness :
    (exDriver.fileExists (respondWith 200) "1" "main" "/docs/readme.md").2.2 = .ok true ∧
    (exDriver.fileExists (respondWith 404) "1" "main" "/docs/readme.md").2.2 = .ok false :=
  ⟨(fileExists_response_policy exDriver (respondWith 200) "1" "main" "/docs/readme.md"
      _ rfl).2.1 200 .null rfl (by decide) (by decide),
   (fileExists_response_policy exDriver (respondWith 404) "1" "main" "/docs/readme.md"
      _ rfl).2.2.1 .null rfl⟩

/-- C2: `postCommit` POSTs the payload with the JSON content type header to
`{API_URL}/projects/{projectId}/repository/commits`; among resolved (2xx)
responses it returns `true` iff the status is 201 (so 200 yields `false`), and
it raises the api error for any HTTP error status (e.g. 500) or a network
failure — so `true` is returned exactly when the backend responds 201. -/
theorem postCommit_contract (d : GitlabApiDriver) (w : World)
    (projectId : String) (commitObject : Json) (req : Request)
    (hreq : req = ⟨.post, d.API_URL ++ "/projects/" ++ projectId ++ "/repository/commits",
      [("PRIVATE-TOKEN", d.AT), ("Content-Type", "application/json")], some commitObject⟩) :
    (d.postCommit w projectId commitObject).2.1 = [req] ∧
    (∀ s body, w req = .response s body → 200 ≤ s → s < 300 →
      (d.postCommit w projectId commitObject).2.2 = .ok (s == 201)) ∧
    (∀ s body, w req = .response s body → ¬ (200 ≤ s ∧ s < 300) →
      (d.postCommit w projectId commitObject).2.2 = .error (.gitlabApiError
        ("Error executing commit on project ID " ++ projectId) (.withResponse s body))) ∧
    (w req = .networkFailure →
      (d.postCommit w projectId commitObject).2.2 = .error (.gitlabApiError
        ("Error executing commit on project ID " ++ projectId) .network)) := by
  subst hreq
  refine ⟨rfl, ?_, ?_, ?_⟩
  · intro s body hw h1 h2
    simp only [GitlabApiDriver.postCommit, axiosRequest, hw]
    rw [if_pos ⟨h1, h2⟩]
  · intro s body hw hns
    simp only [GitlabApiDriver.postCommit, axiosRequest, hw, if_neg hns]
  · intro hw
    simp only [GitlabApiDriver.postCommit, axiosRequest, hw]

/-- C2 witness: concrete runs: the backend responding 201 yields `true`, 200
yields `false`, 500 raises the api error, and a failed connection raises the
api error. -/
theorem postCommit_contract_witness :
    (exDriver.postCommit (respondWith 201) "1" .null).2.2 = .ok true ∧
    (exDriver.postCommit (respondWith 200) "1" .null).2.2 = .ok false ∧
    (exDriver.postCommit (respondWith 500) "1" .null).2.2 = .error (.gitlabApiError
      ("Error executing commit on project ID " ++ "1") (.withResponse 500 .null)) ∧
    (exDriver.postCommit downWorld "1" .null).2.2 = .error (.gitlabApiError
      ("Error executing commit on project ID " ++ "1") .network) :=
  ⟨(postCommit_contract exDriver (respondWith 201) "1" .null _ rfl).2.1
      201 .null rfl (by decide) (by decide),
   (postCommit_contract exDriver (respondWith 200) "1" .null _ rfl).2.1
      200 .null rfl (by decide) (by decide),
   (postCommit_contract exDriver (respondWith 500) "1" .null _ rfl).2.2.1
      500 .null rfl (by decide),
   (postCommit_contract exDriver downWorld "1" .null _ rfl).2.2.2 rfl⟩

/-- C8: `postSnippetCommit` PUTs the payload with the JSON content type header
to `{API_URL}/snippets/{snippetId}` and obeys the same 201-boolean contract as
`postCommit`: among resolved (2xx) responses it returns `true` iff the status
is 201, and it raises the api error for any HTTP error status or a network
failure. -/
theorem postSnippetCommit_contract (d : GitlabApiDriver) (w : World)
    (snippetId : String) (commitObject : Json) (req : Request)
    (hreq : req = ⟨.put, d.API_URL ++ "/snippets/" ++ snippetId,
      [("PRIVATE-TOKEN", d.AT), ("Content-Type", "application/json")], some commitObject⟩) :
    (d.postSnippetCommit w snippetId commitObject).2.1 = [req] ∧
    (∀ s body, w req = .response s body → 200 ≤ s → s < 300 →
      (d.postSnippetCommit w snippetId commitObject).2.2 = .ok (s == 201)) ∧
    (∀ s body, w req = .response s body → ¬ (200 ≤ s ∧ s < 300) →
      (d.postSnippetCommit w snippetId commitObject).2.2 = .error (.gitlabApiError
        ("Error executing commit on snippet ID " ++ snippetId) (.withResponse s body))) ∧
    (w req = .networkFailure →
      (d.postSnippetCommit w snippetId commitObject).2.2 = .error (.gitlabApiError
        ("Error executing commit on snippet ID " ++ snippetId) .network)) := by
  subst hreq
  refine ⟨rfl, ?_, ?_, ?_⟩
  · intro s body hw h1 h2
    simp only [GitlabApiDriver.postSnippetCommit, axiosRequest, hw]
    rw [if_pos ⟨h1, h2⟩]
  · intro s body hw hns
    simp only [GitlabApiDriver.postSnippetCommit, axiosRequest, hw, if_neg hns]
  · intro hw
    simp only [GitlabApiDriver.postSnippetCommit, axiosRequest, hw]

/-- C8 witness: concrete runs: the backend responding 201 yields `true`, 200
yields `false`, and a failed connection raises the api error. -/
theorem postSnippetCommit_contract_witness :
    (exDriver.postSnippetCommit (respondWith 201) "7" .null).2.2 = .ok true ∧
    (exDriver.postSnippetCommit (respondWith 200) "7" .null).2.2 = .ok false ∧
    (exDriver.postSnippetCommit downWorld "7" .null).2.2 = .error (.gitlabApiError
      ("Error executing commit on snippet ID " ++ "7") .network) :=
  ⟨(postSnippetCommit_contract exDriver (respondWith 201) "7" .null _ rfl).2.1
      201 .null rfl (by decide) (by decide),
   (postSnippetCommit_contract exDriver (respondWith 200) "7" .null _ rfl).2.1
      200 .null rfl (by decide) (by decide),
   (postSnippetCommit_contract exDriver downWorld "7" .null _ rfl).2.2.2 rfl⟩

/-- C6: when the identifier resolves to neither the numeric-id form nor the
path form, every identifier-resolving operation — `getProjectUrl`,
`getProject`, `getBranches`, `getRawFile` (with or without an explicit
branch) — fails with the plain invalid-identifier error (`jsError`, not the
wrapped `gitlabApiError`) and issues no HTTP request (empty trace). -/
theorem invalid_identifier_synchronous (d : GitlabApiDriver) (w : World)
    (identifier : Identifier)
    (hid : (resolveProjectIdentifier d.BASE_URL identifier).id = none)
    (hpath : (resolveProjectIdentifier d.BASE_URL identifier).path = none) :
    d.getProjectUrl identifier = .error (.jsError (identifierDisplay identifier ++
      " is an invalid identifier for a project")) ∧
    d.getProject w identifier = (d, [], .error (.jsError (identifierDisplay identifier ++
      " is an invalid identifier for a project"))) ∧
    d.getBranches w identifier = (d, [], .error (.jsError (identifierDisplay identifier ++
      " is an invalid identifier for a project"))) ∧
    (∀ filePath branchName, d.getRawFile w identifier filePath (some branchName) =
      (d, [], .error (.jsError (identifierDisplay identifier ++
        " is an invalid identifier for a project")))) ∧
    (∀ filePath, d.getRawFile w identifier filePath none =
      (d, [], .error (.jsError (identifierDisplay identifier ++
        " is an invalid identifier for a project")))) := by
  have hurl : d.getProjectUrl identifier = .error (.jsError (identifierDisplay identifier ++
      " is an invalid identifier for a project")) := by
    simp only [GitlabApiDriver.getProjectUrl, hid, hpath]
  refine ⟨hurl, ?_, ?_, ?_, ?_⟩
  · simp only [GitlabApiDriver.getProject, hurl]
  · simp only [GitlabApiDriver.getBranches, hurl]
  · intro filePath branchName
    simp only [GitlabApiDriver.getRawFile, getRawFileRest, hurl]
  · intro filePath
    simp only [GitlabApiDriver.getRawFile, GitlabApiDriver.getProject, getRawFileRest, hurl]

/-- C6 witness: the concrete unresolvable identifiers `undefined` and the
empty string, against the sample client: `getProject` fails with the plain
invalid-identifier error and sends nothing. -/
theorem invalid_identifier_synchronous_witness :
    exDriver.getProject (respondWith 200) .undef =
      (exDriver, [], .error (.jsError "undefined is an invalid identifier for a project")) ∧
    exDriver.getProject (respondWith 200) (.str "") =
      (exDriver, [], .error (.jsError " is an invalid identifier for a project")) :=
  ⟨(invalid_identifier_synchronous exDriver (respondWith 200) .undef rfl rfl).2.1,
   (invalid_identifier_synchronous exDriver (respondWith 200) (.str "") rfl rfl).2.1⟩

/-- C10: branch names are embedded verbatim in the constructed URLs — into the
path of the `branchExists` URL and as the `ref` query parameter of the
`fileExists` and `getRawFile` URLs — while the file path component is the only
percent-encoded part; a branch name containing reserved characters therefore
appears literally in the URL. -/
theorem branch_name_embedded_verbatim (d : GitlabApiDriver) (w : World)
    (projectId branchName filePath purl : String) (identifier : Identifier)
    (hurl : d.getProjectUrl identifier = .ok purl) :
    (d.branchExists w projectId branchName).2.1 =
      [⟨.get, d.API_URL ++ "/projects/" ++ projectId ++ "/repository/branches/" ++ branchName,
        d.config, none⟩] ∧
    (d.fileExists w projectId branchName filePath).2.1 =
      [⟨.get, d.API_URL ++ "/projects/" ++ projectId ++ "/repository/files/" ++
        encodeURIComponent (trimSlashes filePath) ++ "?ref=" ++ branchName,
        d.config, none⟩] ∧
    (d.getRawFile w identifier filePath (some branchName)).2.1 =
      [⟨.get, purl ++ "/repository/files/" ++ encodeURIComponent (trimSlashes filePath) ++
        "/raw?ref=" ++ branchName, d.config, none⟩] := by
  refine ⟨rfl, rfl, ?_⟩
  simp only [GitlabApiDriver.getRawFile, getRawFileRest, hurl, List.nil_append]

/-- C10 witness: the branch name `"fe/at#x?y"`, holding the reserved characters
`/`, `#` and `?`, appears literally in all three URLs built by the sample
client, while the file path `"/docs/read me.md"` is slash-trimmed and
percent-encoded. -/
theorem branch_name_embedded_verbatim_witness :
    (exDriver.branchExists (respondWith 200) "1" "fe/at#x?y").2.1 =
      [⟨.get, "https://example.com/api/v4/projects/1/repository/branches/fe/at#x?y",
        exDriver.config, none⟩] ∧
    (exDriver.fileExists (respondWith 200) "1" "fe/at#x?y" "/docs/read me.md").2.1 =
      [⟨.get,
        "https://example.com/api/v4/projects/1/repository/files/docs%2Fread%20me.md?ref=fe/at#x?y",
        exDriver.config, none⟩] ∧
    (exDriver.getRawFile (respondWith 200) (.num 1) "/docs/read me.md" (some "fe/at#x?y")).2.1 =
      [⟨.get,
        "https://example.com/api/v4/projects/1/repository/files/docs%2Fread%20me.md/raw?ref=fe/at#x?y",
        exDriver.config, none⟩] :=
  branch_name_embedded_verbatim exDriver (respondWith 200) "1" "fe/at#x?y"
    "/docs/read me.md" "https://example.com/api/v4/projects/1" (.num 1) rfl

/-- C5: `getRawFile` with the branch omitted first issues the `getProject`
request, reads the returned body's `default_branch`, then issues GET
`{projectUrl}/repository/files/{encodedFilePath}/raw?ref={branch}` with that
branch — exactly two outbound requests in that order — and returns the raw
body when the second response status is 200, and the absent value for any
other 2xx status. -/
theorem getRawFile_default_branch_two_requests (d : GitlabApiDriver) (w : World)
    (identifier : Identifier) (filePath purl b : String) (s1 : Nat) (projBody : Json)
    (req1 req2 : Request)
    (hurl : d.getProjectUrl identifier = .ok purl)
    (hreq1 : req1 = ⟨.get, purl, d.config, none⟩)
    (hreq2 : req2 = ⟨.get, purl ++ "/repository/files/" ++
      encodeURIComponent (trimSlashes filePath) ++ "/raw?ref=" ++ b, d.config, none⟩)
    (hw1 : w req1 = .response s1 projBody)
    (hs1 : 200 ≤ s1) (hs1b : s1 < 300)
    (hbranch : projBody.getField "default_branch" = some (.str b)) :
    (d.getRawFile w identifier filePath none).2.1 = [req1, req2] ∧
    (∀ s2 raw, w req2 = .response s2 raw → 200 ≤ s2 → s2 < 300 →
      (d.getRawFile w identifier filePath none).2.2 =
        .ok (if s2 == 200 then some raw else none)) ∧
    (∀ raw, w req2 = .response 200 raw →
      (d.getRawFile w identifier filePath none).2.2 = .ok (some raw)) := by
  subst hreq1 hreq2
  have hproj : d.getProject w identifier =
      (d, [(⟨.get, purl, d.config, none⟩ : Request)], .ok projBody) := by
    simp only [GitlabApiDriver.getProject, hurl, axiosRequest, hw1]
    rw [if_pos ⟨hs1, hs1b⟩]
  have hdisp : jsDisplay (projBody.getField "default_branch") = b := by
    rw [hbranch]; rfl
  refine ⟨?_, ?_, ?_⟩
  · simp only [GitlabApiDriver.getRawFile, hproj, getRawFileRest, hurl, hdisp,
      List.singleton_append]
  · intro s2 raw hw2 h1 h2
    simp only [GitlabApiDriver.getRawFile, hproj, getRawFileRest, hurl, hdisp,
      axiosRequest, hw2]
    rw [if_pos ⟨h1, h2⟩]
  · intro raw hw2
    simp only [GitlabApiDriver.getRawFile, hproj, getRawFileRest, hurl, hdisp,
      axiosRequest, hw2]
    norm_num

/-- C5 witness: a concrete two-request run against the sample client: the
project lookup answers `default_branch = "main"`, and the raw-file fetch for
`"f.txt"` on branch `main` answers 200 with the content. -/
theorem getRawFile_default_branch_two_requests_witness :
    (exDriver.getRawFile twoStepWorld (.num 1) "f.txt" none).2.1 =
      [⟨.get, "https://example.com/api/v4/projects/1", exDriver.config, none⟩,
       ⟨.get, "https://example.com/api/v4/projects/1/repository/files/f.txt/raw?ref=main",
        exDriver.config, none⟩] ∧
    (exDriver.getRawFile twoStepWorld (.num 1) "f.txt" none).2.2 = .ok (some (.str "content")) :=
  have h := getRawFile_default_branch_two_requests exDriver twoStepWorld (.num 1) "f.txt"
    "https://example.com/api/v4/projects/1" "main" 200
    (.obj [("default_branch", .str "main")]) _ _ rfl rfl rfl rfl
    (by decide) (by decide) rfl
  ⟨h.1, h.2.2 (.str "content") rfl⟩

end GtlbApi
